import Mathlib

/-!
Shallow embedding of the myapi advertising-entity service
(`models.py`, `schemas.py`, `crud.py`, `main.py`, `auth.py`).

Rows are translated from the SQLAlchemy models in `models.py`; the store is a
record of row lists.  CRUD functions are translated from `crud.py`, the
endpoint wrappers (which catch `IntegrityError`) from `main.py`, and the
token functions from `auth.py`.  Prices are declared `Float` in the source but
are only stored and echoed, never computed with, so they are carried as `Int`.
Machine behaviour of the storage engine (`database.py` is not part of the
sources) is modelled from the spec where noted.
-/

namespace MyApi

/-- Row of the `countries` table (`models.py`, class `Country`). -/
structure Country where
  id : Nat
  countryCode : String
  name : String
  dialingCode : String
deriving DecidableEq

/-- Row of the `operators` table (`models.py`, class `Operator`).
`email` is declared on the table but never populated by `create_operator`. -/
structure Operator where
  id : Nat
  name : String
  email : Option String
  status : String
  country_id : Nat
deriving DecidableEq

/-- Row of the `publishers` table (`models.py`, class `Publisher`).
`email` is declared on the table but never populated by `create_publisher`. -/
structure Publisher where
  id : Nat
  name : String
  company_name : String
  email : Option String
  block_rule : String
  status : String
  cap : Int
deriving DecidableEq

/-- Row of the `advertisers` table (`models.py`, class `Advertiser`). -/
structure Advertiser where
  id : Nat
  name : String
  company_name : String
  email : String
  status : String
  sendOtpUrl : String
  verifyOtpUrl : String
  statusCheckUrl : String
  capping : String
  country_id : Nat
  operator_id : Nat
deriving DecidableEq

/-- Row of the `campaigns` table (`models.py`, class `Campaign`).
Note: the table declares no `isLive` column. -/
structure Campaign where
  id : Nat
  name : String
  publisher_id : Nat
  country_id : Nat
  operator_id : Nat
  advertiser_id : Nat
  publisherPrice : Int
  advertiserPrice : Int
  fallbackEnabled : Bool
  redirection_advertiser_id : Option Nat
deriving DecidableEq

/-- Row of the `users` table (`models.py`, class `User`). -/
structure User where
  id : Nat
  firstName : String
  lastName : String
  username : String
  password : String
deriving DecidableEq

/-- The entity store: one list of rows per table. -/
structure DB where
  countries : List Country
  operators : List Operator
  advertisers : List Advertiser
  publishers : List Publisher
  campaigns : List Campaign
  users : List User
deriving DecidableEq

/-- Outcome of a request handler.  `http s d` is a raised `HTTPException`
with status `s` and detail `d`; `integrity` is an `IntegrityError` that no
handler caught, which the framework turns into a generic 500 failure. -/
inductive Err where
  | http (status : Nat) (detail : String)
  | integrity
deriving DecidableEq

deriving instance DecidableEq for Except

/-- Next auto-increment primary key for a table. -/
def freshId (ids : List Nat) : Nat := ids.foldr max 0 + 1

/-- Transactional run of one handler: on success the new store is returned,
on any error the transaction is rolled back and the store is unchanged. -/
def run {α : Type} (op : DB → Except Err (α × DB)) (db : DB) :
    Except Err α × DB :=
  match op db with
  | .ok (a, db2) => (.ok a, db2)
  | .error e => (.error e, db)

/-- Input schema `CountryCreate` (`schemas.py`). -/
structure CountryCreate where
  countryCode : String
  name : String
  dialingCode : String
deriving DecidableEq

/-- Input schema `PublisherCreate` (`schemas.py`); `email` is commented out. -/
structure PublisherCreate where
  name : String
  company_name : String
  block_rule : String
  status : String
  cap : Int
deriving DecidableEq

/-- Input schema `AdvertiserCreate` (`schemas.py`): the base fields plus
`operator_id`, `country_id` and the accepted-but-unused
`fallback_advertiser_id`. -/
structure AdvertiserCreate where
  name : String
  company_name : String
  email : String
  status : String
  sendOtpUrl : String
  verifyOtpUrl : String
  statusCheckUrl : String
  capping : String
  operator_id : Nat
  country_id : Nat
  fallback_advertiser_id : Option Nat
deriving DecidableEq

/-- Input schema `CampaignCreate` (`schemas.py`); `redirection_advertiser_id`
is commented out there, so the schema declares no such field. -/
structure CampaignCreate where
  name : String
  publisherPrice : Int
  advertiserPrice : Int
  fallbackEnabled : Bool
  publisher_id : Nat
  country_id : Nat
  operator_id : Nat
  advertiser_id : Nat
deriving DecidableEq

/-- Input schema `UserCreate` (`schemas.py`). -/
structure UserCreate where
  firstName : String
  lastName : String
  username : String
  password : String
deriving DecidableEq

/-- Wire-level body of a POST /campaigns/ request: the declared
`CampaignCreate` fields plus a possibly supplied `redirection_advertiser_id`
key that the schema does not declare. -/
structure RawCampaignRequest where
  name : String
  publisherPrice : Int
  advertiserPrice : Int
  fallbackEnabled : Bool
  publisher_id : Nat
  country_id : Nat
  operator_id : Nat
  advertiser_id : Nat
  redirection_advertiser_id : Option Nat
deriving DecidableEq

/-- Pydantic parsing of a request body into `CampaignCreate` (`schemas.py`,
class `CampaignCreate`): with the default model config, keys that the model
does not declare are ignored, so the supplied `redirection_advertiser_id`
is discarded without any validation error. -/
def parseCampaignCreate (raw : RawCampaignRequest) : CampaignCreate :=
  { name := raw.name
    publisherPrice := raw.publisherPrice
    advertiserPrice := raw.advertiserPrice
    fallbackEnabled := raw.fallbackEnabled
    publisher_id := raw.publisher_id
    country_id := raw.country_id
    operator_id := raw.operator_id
    advertiser_id := raw.advertiser_id }

/-- Translation of `crud.create_country` (`crud.py` lines 30-41).  The function itself runs
no checks; the commit enforces the unique `countryCode` and `name` columns.
Modelled from the spec: the Entity Store enforces uniqueness at the storage
boundary (`database.py` is not among the sources); the resulting
`IntegrityError` is caught nowhere on this path, so it surfaces as
`Err.integrity`. -/
def create_country (db : DB) (c : CountryCreate) : Except Err (Country × DB) :=
  let row : Country :=
    { id := freshId (db.countries.map (fun x => x.id))
      countryCode := c.countryCode
      name := c.name
      dialingCode := c.dialingCode }
  if db.countries.any (fun x => x.name == c.name || x.countryCode == c.countryCode) then
    .error .integrity
  else
    .ok (row, { db with countries := db.countries ++ [row] })

/-- Translation of `crud.create_publisher` (`crud.py` lines 210-230): no checks of its own
(the email check is commented out); the commit enforces the unique `name`
column (the `email` column stays NULL).  Modelled from the spec: storage-level
uniqueness enforcement; the `IntegrityError` is caught nowhere on this path. -/
def create_publisher (db : DB) (p : PublisherCreate) : Except Err (Publisher × DB) :=
  let row : Publisher :=
    { id := freshId (db.publishers.map (fun x => x.id))
      name := p.name
      company_name := p.company_name
      email := none
      block_rule := p.block_rule
      status := p.status
      cap := p.cap }
  if db.publishers.any (fun x => x.name == p.name) then
    .error .integrity
  else
    .ok (row, { db with publishers := db.publishers ++ [row] })

/-- Translation of `crud.create_advertiser` (`crud.py` lines 151-170): inserts directly, the
`fallback_advertiser_id` assignment being commented out, so that input field
is never read.  The commit enforces the unique `email` column and the
`operator_id`/`country_id` foreign keys.  Modelled from the spec: storage-level
uniqueness and foreign-key enforcement; the `IntegrityError` is caught nowhere
on this path. -/
def create_advertiser (db : DB) (a : AdvertiserCreate) :
    Except Err (Advertiser × DB) :=
  let row : Advertiser :=
    { id := freshId (db.advertisers.map (fun x => x.id))
      name := a.name
      company_name := a.company_name
      email := a.email
      status := a.status
      sendOtpUrl := a.sendOtpUrl
      verifyOtpUrl := a.verifyOtpUrl
      statusCheckUrl := a.statusCheckUrl
      capping := a.capping
      country_id := a.country_id
      operator_id := a.operator_id }
  if db.advertisers.any (fun x => x.email == a.email) then
    .error .integrity
  else if !(db.operators.any (fun o => o.id == a.operator_id)) ||
          !(db.countries.any (fun c => c.id == a.country_id)) then
    .error .integrity
  else
    .ok (row, { db with advertisers := db.advertisers ++ [row] })

/-- Translation of `crud.create_campaign` (`crud.py` lines 267-313): resolves publisher,
country, operator, advertiser in that order, raising 404 on the first miss;
then inserts, catching `IntegrityError` (unique `name`) and translating it to
a 400 conflict after rollback.  The row carries no redirection advertiser
(the input schema declares none) and no `isLive` (the table declares no such
column). -/
def create_campaign (db : DB) (c : CampaignCreate) : Except Err (Campaign × DB) :=
  match db.publishers.find? (fun p => p.id == c.publisher_id) with
  | none => .error (.http 404 "Publisher not found")
  | some publisher =>
  match db.countries.find? (fun x => x.id == c.country_id) with
  | none => .error (.http 404 "Country not found")
  | some country =>
  match db.operators.find? (fun o => o.id == c.operator_id) with
  | none => .error (.http 404 "Operator not found")
  | some operator4 =>
  match db.advertisers.find? (fun a => a.id == c.advertiser_id) with
  | none => .error (.http 404 "Advertiser not found")
  | some advertiser =>
  let row : Campaign :=
    { id := freshId (db.campaigns.map (fun x => x.id))
      name := c.name
      publisher_id := publisher.id
      country_id := country.id
      operator_id := operator4.id
      advertiser_id := advertiser.id
      publisherPrice := c.publisherPrice
      advertiserPrice := c.advertiserPrice
      fallbackEnabled := c.fallbackEnabled
      redirection_advertiser_id := none }
  if db.campaigns.any (fun x => x.name == c.name) then
    .error (.http 400 "Campaign with this name already exists")
  else
    .ok (row, { db with campaigns := db.campaigns ++ [row] })

/-- Translation of `crud.create_user` (`crud.py` lines 365-378): hashes the password and
inserts; the commit enforces the unique `username` column.  Modelled from the
spec: storage-level uniqueness enforcement; the `IntegrityError` is caught
nowhere on this path. -/
def create_user (hash : String → String) (db : DB) (u : UserCreate) :
    Except Err (User × DB) :=
  let row : User :=
    { id := freshId (db.users.map (fun x => x.id))
      firstName := u.firstName
      lastName := u.lastName
      username := u.username
      password := hash u.password }
  if db.users.any (fun x => x.username == u.username) then
    .error .integrity
  else
    .ok (row, { db with users := db.users ++ [row] })

/-- Translation of `crud.delete_country` (`crud.py` lines 62-78): 404 if absent, explicit
guard against linked operators, then delete and commit.  Modelled from the
spec: at commit the store enforces the RESTRICT foreign keys that
`models.py` declares into `countries` (from operators, advertisers and
campaigns); a violation raises `IntegrityError`. -/
def delete_country (db : DB) (cid : Nat) : Except Err (Country × DB) :=
  match db.countries.find? (fun c => c.id == cid) with
  | none => .error (.http 404 "Country not found")
  | some country =>
  match db.operators.find? (fun o => o.country_id == cid) with
  | some _ => .error (.http 400 "Cannot delete country with linked operators")
  | none =>
  if db.operators.any (fun o => o.country_id == cid) ||
     db.advertisers.any (fun a => a.country_id == cid) ||
     db.campaigns.any (fun k => k.country_id == cid) then
    .error .integrity
  else
    .ok (country, { db with countries := db.countries.filter (fun c => c.id != cid) })

/-- Translation of the endpoint `main.remove_country` (`main.py` lines 74-83): calls `delete_country`,
catching `IntegrityError`, rolling back and raising 400. -/
def remove_country (db : DB) (cid : Nat) : Except Err (Country × DB) :=
  match delete_country db cid with
  | .error .integrity =>
      .error (.http 400 "Cannot delete country with linked operators, advertisers, or campaigns")
  | r => r

/-- Translation of `crud.delete_operator` (`crud.py` lines 114-136): 404 if absent, explicit
guards against linked advertisers then linked campaigns, then delete and
commit.  Modelled from the spec: at commit the store enforces the foreign
keys into `operators` (from advertisers and campaigns). -/
def delete_operator (db : DB) (oid : Nat) : Except Err (Operator × DB) :=
  match db.operators.find? (fun o => o.id == oid) with
  | none => .error (.http 404 "Operator not found")
  | some op =>
  match db.advertisers.find? (fun a => a.operator_id == oid) with
  | some _ => .error (.http 400 "Cannot delete operator with linked advertisers")
  | none =>
  match db.campaigns.find? (fun k => k.operator_id == oid) with
  | some _ => .error (.http 400 "Cannot delete operator with linked campaigns")
  | none =>
  if db.advertisers.any (fun a => a.operator_id == oid) ||
     db.campaigns.any (fun k => k.operator_id == oid) then
    .error .integrity
  else
    .ok (op, { db with operators := db.operators.filter (fun o => o.id != oid) })

/-- Translation of the endpoint `main.remove_operator` (`main.py` lines 112-121): catches
`IntegrityError` from `delete_operator` and raises 400. -/
def remove_operator (db : DB) (oid : Nat) : Except Err (Operator × DB) :=
  match delete_operator db oid with
  | .error .integrity =>
      .error (.http 400 "Cannot delete operator with linked advertisers or campaigns")
  | r => r

/-- Translation of `crud.delete_advertiser` (`crud.py` lines 198-207): 404 if absent, then
deletes with NO dependent check of its own.  Modelled from the spec: at
commit the store enforces the two foreign keys from `campaigns` into
`advertisers` (`advertiser_id` and `redirection_advertiser_id`); a dependent
campaign makes the commit raise `IntegrityError`. -/
def delete_advertiser (db : DB) (aid : Nat) : Except Err (Advertiser × DB) :=
  match db.advertisers.find? (fun a => a.id == aid) with
  | none => .error (.http 404 "Advertiser not found")
  | some adv =>
  if db.campaigns.any (fun k => k.advertiser_id == aid ||
       k.redirection_advertiser_id == some aid) then
    .error .integrity
  else
    .ok (adv, { db with advertisers := db.advertisers.filter (fun a => a.id != aid) })

/-- Translation of the endpoint `main.remove_advertiser` (`main.py` lines 163-172): catches
`IntegrityError` from `delete_advertiser` and raises 400. -/
def remove_advertiser (db : DB) (aid : Nat) : Except Err (Advertiser × DB) :=
  match delete_advertiser db aid with
  | .error .integrity =>
      .error (.http 400 "Cannot delete advertiser with linked campaigns")
  | r => r

/-- Translation of `crud.delete_publisher` (`crud.py` lines 251-264): 404 if absent, then in
one transaction deletes every campaign with this `publisher_id` and the
publisher itself, committing once.  Modelled from the spec: `failCommit`
injects a simulated mid-operation failure at the single commit, after which
the transaction rolls back and nothing of the staged work is visible. -/
def delete_publisher (failCommit : Bool) (db : DB) (pid : Nat) :
    Except Err (Publisher × DB) :=
  match db.publishers.find? (fun p => p.id == pid) with
  | none => .error (.http 404 "Publisher not found")
  | some pub =>
  if failCommit then
    .error .integrity
  else
    .ok (pub, { db with
      campaigns := db.campaigns.filter (fun k => k.publisher_id != pid)
      publishers := db.publishers.filter (fun p => p.id != pid) })

/-- Translation of the endpoint `main.remove_publisher` (`main.py` lines 193-202): catches
`IntegrityError` from `delete_publisher`, rolls back and raises 400. -/
def remove_publisher (failCommit : Bool) (db : DB) (pid : Nat) :
    Except Err (Publisher × DB) :=
  match delete_publisher failCommit db pid with
  | .error .integrity =>
      .error (.http 400 "Cannot delete publisher with linked campaigns")
  | r => r

/-- Constant `auth.SECRET_KEY` (`auth.py` line 11, the default value). -/
def SECRET_KEY : String := "your_default_secret_key"

/-- Constant `auth.ACCESS_TOKEN_EXPIRE_MINUTES` (`auth.py` line 13). -/
def ACCESS_TOKEN_EXPIRE_MINUTES : Nat := 30

/-- A bearer token as the `python-jose` layer sees it: either a structurally
valid JWT carrying an optional `sub` claim, an absolute expiry `exp` (in
minutes) and the symmetric key it was signed with, or a malformed blob. -/
inductive Token where
  | signed (sub : Option String) (exp : Nat) (key : String)
  | malformed (raw : String)
deriving DecidableEq

/-- Behaviour of `jwt.decode` of `python-jose` (external library, called at `auth.py`
line 42).  Modelled from the spec: decoding rejects malformed tokens, tokens
whose signature does not match the supplied key, and tokens whose `exp` claim
lies strictly before the current time; otherwise it yields the claims. -/
def jwt_decode (t : Token) (key : String) (now : Nat) :
    Option (Option String × Nat) :=
  match t with
  | .malformed _ => none
  | .signed sub exp k =>
    if k != key then none
    else if exp < now then none
    else some (sub, exp)

/-- Translation of `auth.create_access_token` (`auth.py` lines 27-37) for a payload
`{sub}`.  The source guards the supplied delta with `if expires_delta:`, and
a zero `timedelta` is falsy in Python, so both `None` and a zero delta fall
back to the 30-minute default. -/
def create_access_token (sub : String) (expires_delta : Option Nat)
    (now : Nat) : Token :=
  let expire : Nat :=
    match expires_delta with
    | some d => if d != 0 then now + d else now + ACCESS_TOKEN_EXPIRE_MINUTES
    | none => now + ACCESS_TOKEN_EXPIRE_MINUTES
  Token.signed (some sub) expire SECRET_KEY

/-- Translation of `auth.verify_token` (`auth.py` lines 39-51): decodes with `SECRET_KEY`,
returns the `sub` claim, and returns `none` on any `JWTError` or when the
claim is missing. -/
def verify_token (t : Token) (now : Nat) : Option String :=
  match jwt_decode t SECRET_KEY now with
  | none => none
  | some (sub, _) => sub

/-- Translation of `main.get_current_user` (`main.py` lines 321-330): verifies the token and
looks the subject up among the users, answering the identical
401 "Invalid token" on either failure. -/
def get_current_user (db : DB) (t : Token) (now : Nat) : Except Err User :=
  match verify_token t now with
  | none => .error (.http 401 "Invalid token")
  | some username =>
    match db.users.find? (fun u => u.username == username) with
    | none => .error (.http 401 "Invalid token")
    | some u => .ok u

/-- Behaviour of `auth.get_password_hash` (`auth.py` lines 19-21), delegating to passlib
bcrypt.  Modelled from the spec: a vetted salted one-way hash; the adaptive
salted digest is abstracted to a deterministic injective tagging of the
password (the salt plays no role in the properties verified here). -/
def get_password_hash (password : String) : String :=
  "$2b$12$" ++ password

/-- Behaviour of `auth.verify_password` (`auth.py` lines 23-25), delegating to passlib
bcrypt verification.  Modelled from the spec: verification recomputes the
hash of the plaintext against the stored digest and compares. -/
def verify_password (plain hashed : String) : Bool :=
  hashed == get_password_hash plain

/-- Column names of the `campaigns` table exactly as `models.py`
lines 52-72 declare them. -/
def campaignColumns : List String :=
  ["id", "name", "publisher_id", "country_id", "operator_id",
   "advertiser_id", "publisherPrice", "advertiserPrice",
   "fallbackEnabled", "redirection_advertiser_id"]

/-- Field names of the `Campaign` response schema (`schemas.py`
lines 155-169); every one of them is required. -/
def campaignResponseFields : List String :=
  ["id", "name", "publisherPrice", "advertiserPrice", "fallbackEnabled",
   "isLive", "publisher", "country", "operator", "advertiser"]

/-- Field names of the `CampaignCreate` input schema (`schemas.py`
lines 142-153). -/
def campaignCreateFields : List String :=
  ["name", "publisherPrice", "advertiserPrice", "fallbackEnabled",
   "publisher_id", "country_id", "operator_id", "advertiser_id"]

/-- Sample country row, as in the spec scenario. -/
def countryUS : Country :=
  { id := 1, countryCode := "US", name := "United States", dialingCode := "1" }

/-- Sample operator row referencing `countryUS`. -/
def operatorOp1 : Operator :=
  { id := 1, name := "Op1", email := none, status := "Active", country_id := 1 }

/-- Sample advertiser row referencing country 1 and operator 1. -/
def advertiserAd1 : Advertiser :=
  { id := 1, name := "Ad1", company_name := "AdCo", email := "ad1@example.com"
    status := "Active", sendOtpUrl := "send", verifyOtpUrl := "verify"
    statusCheckUrl := "check", capping := "cap", country_id := 1, operator_id := 1 }

/-- Sample publisher row. -/
def publisherPub1 : Publisher :=
  { id := 1, name := "Pub1", company_name := "PubCo", email := none
    block_rule := "none", status := "Active", cap := 0 }

/-- Sample campaign row with the given id, name and publisher. -/
def campaignOn (i : Nat) (nm : String) (pid : Nat) : Campaign :=
  { id := i, name := nm, publisher_id := pid, country_id := 1, operator_id := 1
    advertiser_id := 1, publisherPrice := 10, advertiserPrice := 20
    fallbackEnabled := false, redirection_advertiser_id := none }

/-- The empty store. -/
def dbEmpty : DB :=
  { countries := [], operators := [], advertisers := [], publishers := []
    campaigns := [], users := [] }

/-- Store holding exactly one country. -/
def dbOneCountry : DB := { dbEmpty with countries := [countryUS] }

/-- Store of the spec scenario: one country and one operator referencing it. -/
def dbScenario : DB :=
  { dbEmpty with countries := [countryUS], operators := [operatorOp1] }

/-- Store with one country referenced by an advertiser but by no operator. -/
def dbCountryAdvertiser : DB :=
  { dbEmpty with countries := [countryUS], advertisers := [advertiserAd1] }

/-- Store with one row of each parent entity and no campaigns. -/
def dbBase : DB :=
  { dbEmpty with
    countries := [countryUS]
    operators := [operatorOp1]
    advertisers := [advertiserAd1]
    publishers := [publisherPub1] }

/-- Store with two publishers, two campaigns on publisher 1 and one on
publisher 2. -/
def dbPublishers : DB :=
  { dbEmpty with
    publishers := [publisherPub1, { publisherPub1 with id := 2, name := "Pub2" }]
    campaigns := [campaignOn 1 "c1" 1, campaignOn 2 "c2" 1, campaignOn 3 "c3" 2] }

/-- Store with the parents of `dbBase` plus one campaign named Camp1. -/
def dbOneCampaign : DB :=
  { dbBase with campaigns := [campaignOn 1 "Camp1" 1] }

/-- A raw create-campaign request that supplies `fallbackEnabled = false`
together with a non-null `redirection_advertiser_id`. -/
def rawReq : RawCampaignRequest :=
  { name := "Camp1", publisherPrice := 10, advertiserPrice := 20
    fallbackEnabled := false, publisher_id := 1, country_id := 1
    operator_id := 1, advertiser_id := 1, redirection_advertiser_id := some 1 }

/-- The campaign row `create_campaign` inserts for `rawReq` over `dbBase`. -/
def campNew : Campaign :=
  { id := 1, name := "Camp1", publisher_id := 1, country_id := 1
    operator_id := 1, advertiser_id := 1, publisherPrice := 10
    advertiserPrice := 20, fallbackEnabled := false
    redirection_advertiser_id := none }

/-- Store `dbBase` after the insertion of `campNew`. -/
def dbAfterC5 : DB := { dbBase with campaigns := [campNew] }

theorem find?_none_of_any_false {α : Type} {p : α → Bool} {l : List α}
    (h : l.any p = false) : l.find? p = none := by
  rw [List.find?_eq_none]
  intro x hx
  simp [List.any_eq_false] at h
  simp [h x hx]

theorem exists_find?_some_of_any_true {α : Type} {p : α → Bool} {l : List α}
    (h : l.any p = true) : ∃ a, l.find? p = some a := by
  induction l with
  | nil => simp at h
  | cons b t ih =>
    by_cases hb : p b
    · exact ⟨b, by simp [List.find?, hb]⟩
    · simp [List.any, hb] at h
      obtain ⟨a, ha⟩ := ih (by simpa using h)
      exact ⟨a, by simp [List.find?, hb, ha]⟩

theorem country_delete_blocked (db : DB) (cid : Nat) (c : Country)
    (hc : db.countries.find? (fun x => x.id == cid) = some c)
    (hop : db.operators.any (fun o => o.country_id == cid) = true) :
    run (fun d => remove_country d cid) db =
      (.error (.http 400 "Cannot delete country with linked operators"), db) := by
  obtain ⟨o, ho⟩ := exists_find?_some_of_any_true hop
  simp [run, remove_country, delete_country, hc, ho]

theorem country_delete_ok (db : DB) (cid : Nat) (c : Country)
    (hc : db.countries.find? (fun x => x.id == cid) = some c)
    (hop : db.operators.any (fun o => o.country_id == cid) = false)
    (hadv : db.advertisers.any (fun a => a.country_id == cid) = false)
    (hcam : db.campaigns.any (fun k => k.country_id == cid) = false) :
    run (fun d => remove_country d cid) db =
      (.ok c, { db with countries := db.countries.filter (fun x => x.id != cid) }) := by
  have hofind := find?_none_of_any_false hop
  simp [run, remove_country, delete_country, hc, hofind, hop, hadv, hcam]

theorem operator_delete_blocked_adv (db : DB) (oid : Nat) (o : Operator)
    (ho : db.operators.find? (fun x => x.id == oid) = some o)
    (hadv : db.advertisers.any (fun a => a.operator_id == oid) = true) :
    run (fun d => remove_operator d oid) db =
      (.error (.http 400 "Cannot delete operator with linked advertisers"), db) := by
  obtain ⟨a, ha⟩ := exists_find?_some_of_any_true hadv
  simp [run, remove_operator, delete_operator, ho, ha]

theorem operator_delete_blocked_camp (db : DB) (oid : Nat) (o : Operator)
    (ho : db.operators.find? (fun x => x.id == oid) = some o)
    (hadv : db.advertisers.any (fun a => a.operator_id == oid) = false)
    (hcam : db.campaigns.any (fun k => k.operator_id == oid) = true) :
    run (fun d => remove_operator d oid) db =
      (.error (.http 400 "Cannot delete operator with linked campaigns"), db) := by
  have hafind := find?_none_of_any_false hadv
  obtain ⟨k, hk⟩ := exists_find?_some_of_any_true hcam
  simp [run, remove_operator, delete_operator, ho, hafind, hk]

theorem operator_delete_ok (db : DB) (oid : Nat) (o : Operator)
    (ho : db.operators.find? (fun x => x.id == oid) = some o)
    (hadv : db.advertisers.any (fun a => a.operator_id == oid) = false)
    (hcam : db.campaigns.any (fun k => k.operator_id == oid) = false) :
    run (fun d => remove_operator d oid) db =
      (.ok o, { db with operators := db.operators.filter (fun x => x.id != oid) }) := by
  have hafind := find?_none_of_any_false hadv
  have hkfind := find?_none_of_any_false hcam
  simp [run, remove_operator, delete_operator, ho, hafind, hkfind, hadv, hcam]

theorem advertiser_delete_blocked (db : DB) (aid : Nat) (a : Advertiser)
    (ha : db.advertisers.find? (fun x => x.id == aid) = some a)
    (hcam : db.campaigns.any (fun k => k.advertiser_id == aid ||
        k.redirection_advertiser_id == some aid) = true) :
    run (fun d => remove_advertiser d aid) db =
      (.error (.http 400 "Cannot delete advertiser with linked campaigns"), db) := by
  simp [run, remove_advertiser, delete_advertiser, ha, hcam]

theorem advertiser_delete_ok (db : DB) (aid : Nat) (a : Advertiser)
    (ha : db.advertisers.find? (fun x => x.id == aid) = some a)
    (hcam : db.campaigns.any (fun k => k.advertiser_id == aid ||
        k.redirection_advertiser_id == some aid) = false) :
    run (fun d => remove_advertiser d aid) db =
      (.ok a, { db with advertisers := db.advertisers.filter (fun x => x.id != aid) }) := by
  simp [run, remove_advertiser, delete_advertiser, ha, hcam]

/-- C1 (counterexample): in a store whose only country is referenced by an
advertiser but by no operator, deleting the country does NOT succeed as the
claim predicts: the commit violates the advertisers-to-countries foreign key
and the endpoint answers 400, the country remaining in the store. -/
theorem c1_counterexample :
    dbCountryAdvertiser.operators.any (fun o => o.country_id == 1) = false ∧
    run (fun d => remove_country d 1) dbCountryAdvertiser =
      (.error (.http 400 "Cannot delete country with linked operators, advertisers, or campaigns"),
       dbCountryAdvertiser) := by
  decide

/-- C1 (amended): for each parent the delete is blocked with a 400 conflict
and the store left unchanged while a listed dependent exists (for Advertiser
the conflict comes from the endpoint's IntegrityError handler); the delete
succeeds and removes exactly the parent once NO row of any kind references it
- which for Country also requires the absence of referencing advertisers and
campaigns, not merely of operators. -/
theorem c1_amended_delete_guard :
    (∀ (db : DB) (cid : Nat) (c : Country),
      db.countries.find? (fun x => x.id == cid) = some c →
      db.operators.any (fun o => o.country_id == cid) = true →
      run (fun d => remove_country d cid) db =
        (.error (.http 400 "Cannot delete country with linked operators"), db)) ∧
    (∀ (db : DB) (cid : Nat) (c : Country),
      db.countries.find? (fun x => x.id == cid) = some c →
      db.operators.any (fun o => o.country_id == cid) = false →
      db.advertisers.any (fun a => a.country_id == cid) = false →
      db.campaigns.any (fun k => k.country_id == cid) = false →
      run (fun d => remove_country d cid) db =
        (.ok c, { db with countries := db.countries.filter (fun x => x.id != cid) })) ∧
    (∀ (db : DB) (oid : Nat) (o : Operator),
      db.operators.find? (fun x => x.id == oid) = some o →
      db.advertisers.any (fun a => a.operator_id == oid) = true →
      run (fun d => remove_operator d oid) db =
        (.error (.http 400 "Cannot delete operator with linked advertisers"), db)) ∧
    (∀ (db : DB) (oid : Nat) (o : Operator),
      db.operators.find? (fun x => x.id == oid) = some o →
      db.advertisers.any (fun a => a.operator_id == oid) = false →
      db.campaigns.any (fun k => k.operator_id == oid) = true →
      run (fun d => remove_operator d oid) db =
        (.error (.http 400 "Cannot delete operator with linked campaigns"), db)) ∧
    (∀ (db : DB) (oid : Nat) (o : Operator),
      db.operators.find? (fun x => x.id == oid) = some o →
      db.advertisers.any (fun a => a.operator_id == oid) = false →
      db.campaigns.any (fun k => k.operator_id == oid) = false →
      run (fun d => remove_operator d oid) db =
        (.ok o, { db with operators := db.operators.filter (fun x => x.id != oid) })) ∧
    (∀ (db : DB) (aid : Nat) (a : Advertiser),
      db.advertisers.find? (fun x => x.id == aid) = some a →
      db.campaigns.any (fun k => k.advertiser_id == aid ||
          k.redirection_advertiser_id == some aid) = true →
      run (fun d => remove_advertiser d aid) db =
        (.error (.http 400 "Cannot delete advertiser with linked campaigns"), db)) ∧
    (∀ (db : DB) (aid : Nat) (a : Advertiser),
      db.advertisers.find? (fun x => x.id == aid) = some a →
      db.campaigns.any (fun k => k.advertiser_id == aid ||
          k.redirection_advertiser_id == some aid) = false →
      run (fun d => remove_advertiser d aid) db =
        (.ok a, { db with advertisers := db.advertisers.filter (fun x => x.id != aid) })) :=
  ⟨country_delete_blocked, country_delete_ok, operator_delete_blocked_adv,
   operator_delete_blocked_camp, operator_delete_ok, advertiser_delete_blocked,
   advertiser_delete_ok⟩

/-- C1 (witness): in the spec scenario store, deleting country 1 while
operator 1 references it yields the linked-operators conflict and leaves the
store unchanged. -/
theorem c1_amended_witness :
    run (fun d => remove_country d 1) dbScenario =
      (.error (.http 400 "Cannot delete country with linked operators"), dbScenario) :=
  c1_amended_delete_guard.1 dbScenario 1 countryUS (by decide) (by decide)

/-- C2: deleting a publisher removes, in one committed unit, exactly the
campaigns referencing it and the publisher itself, leaving every other table
untouched; and when the commit fails mid-operation the store is returned
unchanged, the publisher and all its campaigns still present. -/
theorem c2_publisher_cascade_atomic :
    ∀ (db : DB) (pid : Nat) (pub : Publisher),
      db.publishers.find? (fun p => p.id == pid) = some pub →
      run (fun d => remove_publisher false d pid) db =
        (.ok pub, { db with
          campaigns := db.campaigns.filter (fun k => k.publisher_id != pid)
          publishers := db.publishers.filter (fun p => p.id != pid) }) ∧
      (∀ k ∈ (run (fun d => remove_publisher false d pid) db).2.campaigns,
        k.publisher_id ≠ pid) ∧
      (∀ q ∈ (run (fun d => remove_publisher false d pid) db).2.publishers,
        q.id ≠ pid) ∧
      run (fun d => remove_publisher true d pid) db =
        (.error (.http 400 "Cannot delete publisher with linked campaigns"), db) := by
  intro db pid pub h
  refine ⟨?_, ?_, ?_, ?_⟩ <;>
    simp [run, remove_publisher, delete_publisher, h, List.mem_filter]

/-- C2 (witness): in a store with publisher 1 owning campaigns 1 and 2 and
publisher 2 owning campaign 3, deleting publisher 1 removes it together with
exactly its two campaigns, and a failing commit leaves the store unchanged. -/
theorem c2_publisher_cascade_witness :
    run (fun d => remove_publisher false d 1) dbPublishers =
      (.ok publisherPub1, { dbPublishers with
        campaigns := dbPublishers.campaigns.filter (fun k => k.publisher_id != 1)
        publishers := dbPublishers.publishers.filter (fun p => p.id != 1) }) ∧
    run (fun d => remove_publisher true d 1) dbPublishers =
      (.error (.http 400 "Cannot delete publisher with linked campaigns"), dbPublishers) := by
  have h := c2_publisher_cascade_atomic dbPublishers 1 publisherPub1 (by decide)
  exact ⟨h.1, h.2.2.2⟩

/-- C3: `create_campaign` resolves publisher, country, operator, advertiser
in that fixed order, fails with the 404 of the first unresolved reference and
inserts nothing (the input schema declares no redirection advertiser, so the
four listed references are all its mandatory ones). -/
theorem c3_reference_resolution_order :
    ∀ (db : DB) (c : CampaignCreate),
      (db.publishers.find? (fun p => p.id == c.publisher_id) = none →
        run (fun d => create_campaign d c) db =
          (.error (.http 404 "Publisher not found"), db)) ∧
      (∀ pub, db.publishers.find? (fun p => p.id == c.publisher_id) = some pub →
        db.countries.find? (fun x => x.id == c.country_id) = none →
        run (fun d => create_campaign d c) db =
          (.error (.http 404 "Country not found"), db)) ∧
      (∀ pub ctry, db.publishers.find? (fun p => p.id == c.publisher_id) = some pub →
        db.countries.find? (fun x => x.id == c.country_id) = some ctry →
        db.operators.find? (fun o => o.id == c.operator_id) = none →
        run (fun d => create_campaign d c) db =
          (.error (.http 404 "Operator not found"), db)) ∧
      (∀ pub ctry op, db.publishers.find? (fun p => p.id == c.publisher_id) = some pub →
        db.countries.find? (fun x => x.id == c.country_id) = some ctry →
        db.operators.find? (fun o => o.id == c.operator_id) = some op →
        db.advertisers.find? (fun a => a.id == c.advertiser_id) = none →
        run (fun d => create_campaign d c) db =
          (.error (.http 404 "Advertiser not found"), db)) := by
  intro db c
  refine ⟨?_, ?_, ?_, ?_⟩ <;> intros <;>
    simp [run, create_campaign, *]

/-- C3 (witness): over the empty store, every reference is unresolved and the
creation of `rawReq`'s campaign fails with the publisher 404, the first
reference in the order, inserting nothing. -/
theorem c3_reference_resolution_witness :
    run (fun d => create_campaign d (parseCampaignCreate rawReq)) dbEmpty =
      (.error (.http 404 "Publisher not found"), dbEmpty) :=
  (c3_reference_resolution_order dbEmpty (parseCampaignCreate rawReq)).1 (by decide)

/-- C4 (counterexample): re-creating a country under an existing name does
not surface a distinct Conflict: the uniqueness violation escapes as an
uncaught IntegrityError, a generic failure (the pre-existing row is
unchanged). -/
theorem c4_counterexample :
    run (fun d => create_country d
        { countryCode := "USA", name := "United States", dialingCode := "1" })
      dbOneCountry = (.error Err.integrity, dbOneCountry) := by
  decide

/-- C4 (amended): a duplicate unique name or email aborts every insert with
the pre-existing row unchanged, but only Campaign creation translates the
violation into a distinct 400 Conflict; Country, Publisher, Advertiser and
User creation let the IntegrityError escape as a generic failure.  A first
Campaign under a fresh name is inserted, and a second Campaign under the
same name fails with the Conflict, leaving the store - hence the first
campaign - unchanged. -/
theorem c4_amended_uniqueness_conflicts :
    (∀ (db : DB) (c : CountryCreate),
      db.countries.any (fun x => x.name == c.name || x.countryCode == c.countryCode) = true →
      run (fun d => create_country d c) db = (.error Err.integrity, db)) ∧
    (∀ (db : DB) (p : PublisherCreate),
      db.publishers.any (fun x => x.name == p.name) = true →
      run (fun d => create_publisher d p) db = (.error Err.integrity, db)) ∧
    (∀ (db : DB) (a : AdvertiserCreate),
      db.advertisers.any (fun x => x.email == a.email) = true →
      run (fun d => create_advertiser d a) db = (.error Err.integrity, db)) ∧
    (∀ (db : DB) (u : UserCreate),
      db.users.any (fun x => x.username == u.username) = true →
      run (fun d => create_user get_password_hash d u) db = (.error Err.integrity, db)) ∧
    (∀ (db : DB) (c : CampaignCreate) (pub : Publisher) (ctry : Country)
        (op : Operator) (adv : Advertiser),
      db.publishers.find? (fun p => p.id == c.publisher_id) = some pub →
      db.countries.find? (fun x => x.id == c.country_id) = some ctry →
      db.operators.find? (fun o => o.id == c.operator_id) = some op →
      db.advertisers.find? (fun a => a.id == c.advertiser_id) = some adv →
      db.campaigns.any (fun x => x.name == c.name) = true →
      run (fun d => create_campaign d c) db =
        (.error (.http 400 "Campaign with this name already exists"), db)) ∧
    (∀ (db : DB) (c : CampaignCreate) (pub : Publisher) (ctry : Country)
        (op : Operator) (adv : Advertiser),
      db.publishers.find? (fun p => p.id == c.publisher_id) = some pub →
      db.countries.find? (fun x => x.id == c.country_id) = some ctry →
      db.operators.find? (fun o => o.id == c.operator_id) = some op →
      db.advertisers.find? (fun a => a.id == c.advertiser_id) = some adv →
      db.campaigns.any (fun x => x.name == c.name) = false →
      ∃ r, create_campaign db c = .ok (r, { db with campaigns := db.campaigns ++ [r] }) ∧
        r.name = c.name) := by
  refine ⟨?_, ?_, ?_, ?_, ?_, ?_⟩
  · intro db c h
    simp [run, create_country, h]
  · intro db p h
    simp [run, create_publisher, h]
  · intro db a h
    simp [run, create_advertiser, h]
  · intro db u h
    simp [run, create_user, h]
  · intro db c pub ctry op adv h1 h2 h3 h4 hdup
    simp [run, create_campaign, h1, h2, h3, h4, hdup]
  · intro db c pub ctry op adv h1 h2 h3 h4 hdup
    refine ⟨{ id := freshId (db.campaigns.map (fun x => x.id)), name := c.name
              publisher_id := pub.id, country_id := ctry.id, operator_id := op.id
              advertiser_id := adv.id, publisherPrice := c.publisherPrice
              advertiserPrice := c.advertiserPrice, fallbackEnabled := c.fallbackEnabled
              redirection_advertiser_id := none }, ?_, rfl⟩
    simp [create_campaign, h1, h2, h3, h4, hdup]

/-- C4 (witness): over a store already holding the campaign Camp1, creating a
second campaign named Camp1 fails with the distinct Conflict and leaves the
store, in particular the first campaign, unchanged. -/
theorem c4_amended_witness :
    run (fun d => create_campaign d (parseCampaignCreate rawReq)) dbOneCampaign =
      (.error (.http 400 "Campaign with this name already exists"), dbOneCampaign) :=
  c4_amended_uniqueness_conflicts.2.2.2.2.1 dbOneCampaign
    (parseCampaignCreate rawReq) publisherPub1 countryUS operatorOp1 advertiserAd1
    (by decide) (by decide) (by decide) (by decide) (by decide)

/-- C5 (counterexample): a request with `fallbackEnabled = false` and
`redirection_advertiser_id = 1` does NOT fail with a validation error: the
undeclared field is dropped in parsing and the campaign is inserted, with no
redirection advertiser stored. -/
theorem c5_counterexample :
    rawReq.fallbackEnabled = false ∧
    rawReq.redirection_advertiser_id = some 1 ∧
    create_campaign dbBase (parseCampaignCreate rawReq) = .ok (campNew, dbAfterC5) ∧
    campNew.redirection_advertiser_id = none := by
  decide

/-- C5 (amended): `CampaignCreate` declares no `redirection_advertiser_id`,
so a supplied value is discarded by parsing with no effect on the result,
and every campaign `create_campaign` inserts carries no redirection
advertiser. -/
theorem c5_amended_redirection_dropped :
    ∀ (db : DB) (raw : RawCampaignRequest) (v : Option Nat),
      parseCampaignCreate { raw with redirection_advertiser_id := v } =
        parseCampaignCreate raw ∧
      (∀ r db2, create_campaign db (parseCampaignCreate raw) = .ok (r, db2) →
        r.redirection_advertiser_id = none) := by
  intro db raw v
  constructor
  · rfl
  · intro r db2 h
    unfold create_campaign at h
    repeat' split at h
    all_goals try simp_all
    all_goals obtain ⟨h1, h2⟩ := h
    all_goals subst h1
    all_goals rfl

/-- C5 (witness): for the concrete request `rawReq` over `dbBase`, the
inserted campaign has no redirection advertiser. -/
theorem c5_amended_witness :
    campNew.redirection_advertiser_id = none :=
  (c5_amended_redirection_dropped dbBase rawReq (some 5)).2 campNew dbAfterC5 (by decide)

/-- C6: issuing a token for subject u with a zero expiry delta does not give
an expired token - the zero timedelta is falsy in Python, so the code falls
back to the 30-minute default and `verify_token` returns the subject at the
moment of issuance, where the claim promises Expired with no subject. -/
theorem c6_code_bug_zero_ttl :
    create_access_token "u" (some 0) 0 =
      Token.signed (some "u") ACCESS_TOKEN_EXPIRE_MINUTES SECRET_KEY ∧
    verify_token (create_access_token "u" (some 0) 0) 0 = some "u" := by
  decide

/-- C7: every failing token path - malformed token, wrong signing key,
expired claim, or a valid token whose subject no longer exists among the
users - makes `get_current_user` answer the one identical 401 Invalid-token
error, returning no subject. -/
theorem c7_uniform_unauthorized :
    ∀ (db : DB) (t : Token) (now : Nat),
      ((∃ raw, t = Token.malformed raw) ∨
       (∃ s e k, t = Token.signed s e k ∧ k ≠ SECRET_KEY) ∨
       (∃ s e k, t = Token.signed s e k ∧ e < now) ∨
       (∃ u, verify_token t now = some u ∧
          db.users.find? (fun x => x.username == u) = none)) →
      get_current_user db t now = .error (.http 401 "Invalid token") := by
  intro db t now h
  rcases h with ⟨raw, rfl⟩ | ⟨s, e, k, rfl, hk⟩ | ⟨s, e, k, rfl, he⟩ | ⟨u, hu, hfind⟩
  · simp [get_current_user, verify_token, jwt_decode]
  · simp [get_current_user, verify_token, jwt_decode, hk]
  · by_cases hk : k = SECRET_KEY
    · simp [get_current_user, verify_token, jwt_decode, hk, he]
    · simp [get_current_user, verify_token, jwt_decode, hk]
  · simp [get_current_user, hu, hfind]

/-- C7 (witness): a malformed token against the empty store is rejected with
the uniform 401. -/
theorem c7_uniform_unauthorized_witness :
    get_current_user dbEmpty (Token.malformed "x") 0 =
      .error (.http 401 "Invalid token") :=
  c7_uniform_unauthorized dbEmpty (Token.malformed "x") 0 (Or.inl ⟨"x", rfl⟩)

/-- C8: hashing never returns its input, verification accepts the matching
plaintext, and verification rejects every non-matching plaintext. -/
theorem c8_hash_verify :
    ∀ x y : String,
      get_password_hash x ≠ x ∧
      verify_password x (get_password_hash x) = true ∧
      (x ≠ y → verify_password x (get_password_hash y) = false) := by
  intro x y
  refine ⟨?_, ?_, ?_⟩
  · intro h
    have h2 := congrArg String.length h
    rw [get_password_hash, String.length_append] at h2
    have h7 : ("$2b$12$" : String).length = 7 := rfl
    rw [h7] at h2
    omega
  · simp [verify_password]
  · intro hxy
    rw [verify_password, beq_eq_false_iff_ne]
    intro heq
    rw [get_password_hash, get_password_hash] at heq
    have h2 := congrArg String.data heq
    simp [String.data_append] at h2
    exact hxy (String.ext h2).symm

/-- C8 (witness): at the concrete pair of distinct passwords a and b, the
hash of b does not verify against a. -/
theorem c8_hash_verify_witness :
    verify_password "a" (get_password_hash "b") = false :=
  (c8_hash_verify "a" "b").2.2 (by decide)

/-- C9: the code contradicts itself about `isLive` - the Campaign response
schema requires an `isLive` value, yet the campaigns table declares no
`isLive` column and the creation input cannot set one, so no inserted
Campaign row stores any `isLive` at all, let alone a false default. -/
theorem c9_isLive_missing_column :
    "isLive" ∈ campaignResponseFields ∧
    "isLive" ∉ campaignColumns ∧
    "isLive" ∉ campaignCreateFields := by
  decide

/-- C10: `create_advertiser` never reads the accepted
`fallback_advertiser_id` input - two creation inputs differing only in that
field produce the very same outcome, row and store included. -/
theorem c10_fallback_advertiser_ignored :
    ∀ (db : DB) (a : AdvertiserCreate) (v w : Option Nat),
      create_advertiser db { a with fallback_advertiser_id := v } =
      create_advertiser db { a with fallback_advertiser_id := w } := by
  intro db a v w
  rfl

end MyApi
